import Mathlib

/-!
Verification of the shader cache and pipeline hot-reload subsystem of the
terrain_and_stuff repository.

The development shallowly embeds two Rust modules:

* `src/resource_managers/pipelines.rs` (`PipelineManager`): shader modules are
  cached per path in a `HashMap`, render pipelines live in a slotmap, and
  `reload_changed_pipelines` drains a channel of changed paths, reloading the
  changed module and rebuilding every pipeline whose vertex or fragment shader
  path matches the changed path.
* `src/resource_managers/shader_cache.rs` (`ShaderCache`): naga_oil-composed
  shader sources keyed by resolved path, with direct-dependent edges used to
  cascade removal in `remove_shader_for_path`.

Modelling conventions:

* Hash maps and slotmaps become association lists (`List (key × value)`).
  Slotmap handles become `Nat` drawn from a monotone counter; handles are
  never reused, matching slotmap's generational keys.
* The filesystem, the naga_oil composer and the wgpu device are external
  effects; they are passed in explicitly as function-valued parameters
  (`FS`, `ShaderEnv`).  A wgpu shader module is recorded by the source text
  it was built from, and a wgpu render pipeline by the module sources and
  entry point names that went into it, since `create_shader_module` /
  `create_render_pipeline` are deterministic in those inputs and defer
  validation errors.
* The unbounded recursion of `ShaderCache::get_or_load_shader_source` is
  embedded with a fuel parameter; a `none` result means the recursion did
  not finish within the given fuel.
* `reload_changed_pipelines` additionally returns a trace of `ReloadEvent`s
  recording, in order, which modules were removed/reloaded and which
  pipelines had rebuilds attempted; the trace is a ghost observation used to
  state ordering properties and does not influence the state.
-/

deriving instance DecidableEq for Except

/-! ## Association list helpers (model of `HashMap` / slotmap storage) -/

def alLookup {α β : Type} [DecidableEq α] : List (α × β) → α → Option β
  | [], _ => none
  | (k, v) :: rest, key => if key = k then some v else alLookup rest key

def alEraseKey {α β : Type} [DecidableEq α] : List (α × β) → α → List (α × β)
  | [], _ => []
  | (k, v) :: rest, key =>
    if key = k then alEraseKey rest key else (k, v) :: alEraseKey rest key

/-- Insertion with `HashMap::insert` semantics: any previous binding for the
key is replaced. -/
def alInsert {α β : Type} [DecidableEq α] (l : List (α × β)) (key : α) (v : β) :
    List (α × β) :=
  alEraseKey l key ++ [(key, v)]

/-- Apply `f` to the value stored under `key`, leaving other bindings alone. -/
def alUpdate {α β : Type} [DecidableEq α] (l : List (α × β)) (key : α) (f : β → β) :
    List (α × β) :=
  l.map fun kv => if kv.1 = key then (kv.1, f kv.2) else kv

theorem alLookup_eraseKey_self {α β : Type} [DecidableEq α]
    (l : List (α × β)) (key : α) : alLookup (alEraseKey l key) key = none := by
  induction l with
  | nil => rfl
  | cons kv rest ih =>
    obtain ⟨k, v⟩ := kv
    by_cases h : key = k
    · subst h; simp [alEraseKey, ih]
    · simp [alEraseKey, alLookup, h, ih]

theorem alLookup_append_left {α β : Type} [DecidableEq α]
    (l₁ l₂ : List (α × β)) (key : α) (v : β) (h : alLookup l₁ key = some v) :
    alLookup (l₁ ++ l₂) key = some v := by
  induction l₁ with
  | nil => simp [alLookup] at h
  | cons kv rest ih =>
    obtain ⟨k, w⟩ := kv
    by_cases hk : key = k
    · simp [alLookup, hk] at h ⊢; exact h
    · simp [alLookup, hk] at h ⊢; exact ih h

theorem alLookup_append_right {α β : Type} [DecidableEq α]
    (l₁ l₂ : List (α × β)) (key : α) (h : alLookup l₁ key = none) :
    alLookup (l₁ ++ l₂) key = alLookup l₂ key := by
  induction l₁ with
  | nil => simp
  | cons kv rest ih =>
    obtain ⟨k, w⟩ := kv
    by_cases hk : key = k
    · simp [alLookup, hk] at h
    · simp [alLookup, hk] at h ⊢; exact ih h

theorem alLookup_insert_self {α β : Type} [DecidableEq α]
    (l : List (α × β)) (key : α) (v : β) :
    alLookup (alInsert l key v) key = some v := by
  rw [alInsert, alLookup_append_right _ _ _ (alLookup_eraseKey_self l key)]
  simp [alLookup]

theorem alLookup_eraseKey_ne {α β : Type} [DecidableEq α]
    (l : List (α × β)) (key key' : α) (h : key' ≠ key) :
    alLookup (alEraseKey l key) key' = alLookup l key' := by
  induction l with
  | nil => rfl
  | cons kv rest ih =>
    obtain ⟨k, v⟩ := kv
    by_cases hk : key = k
    · subst hk; simp [alEraseKey, alLookup, h, ih]
    · by_cases hk' : key' = k
      · simp [alEraseKey, alLookup, hk, hk']
      · simp [alEraseKey, alLookup, hk, hk', ih]

theorem alLookup_insert_ne {α β : Type} [DecidableEq α]
    (l : List (α × β)) (key key' : α) (v : β) (h : key' ≠ key) :
    alLookup (alInsert l key v) key' = alLookup l key' := by
  rw [alInsert]
  cases hl : alLookup (alEraseKey l key) key' with
  | none =>
    rw [alLookup_append_right _ _ _ hl]
    rw [alLookup_eraseKey_ne l key key' h] at hl
    simp [alLookup, h, hl]
  | some w =>
    rw [alLookup_append_left _ _ _ _ hl]
    rw [alLookup_eraseKey_ne l key key' h] at hl
    exact hl.symm

/-! ## PipelineManager model (`src/resource_managers/pipelines.rs`)

The filesystem is a function from a path (relative to the shaders directory)
to the current content of that file, `none` meaning the read fails.  The
watcher-side path handling of `reload_changed_pipelines` (canonicalization of
the event path and stripping of the shaders-directory prefix, with
non-canonicalizable paths dropped) is modelled by taking the drained change
list to already consist of the surviving relative paths. -/

abbrev FS := String → Option String

/-- The directory prefix that `load_shader_module` joins onto relative shader
paths on native targets (`SHADERS_DIR`). -/
def shadersDirJoin (path : String) : String :=
  "terrain_and_stuff/shaders/" ++ path

/-- Model of `ShaderEntryPoint`. -/
structure ShaderEntryPoint where
  path : String
  functionName : String
deriving DecidableEq

/-- Model of `RenderPipelineDescriptor`.  The fixed-function fields
(`layout`, `fragment_targets`, `primitive`, `depth_stencil`, `multisample`)
are opaque wgpu values that the manager only ever copies into the wgpu
descriptor; they are omitted since no manager logic inspects them. -/
structure RenderPipelineDescriptor where
  debugLabel : String
  vertexShader : ShaderEntryPoint
  fragmentShader : ShaderEntryPoint
deriving DecidableEq

/-- A `wgpu::RenderPipeline`, recorded by the inputs it was built from. -/
structure RenderPipeline where
  vertexSource : String
  fragmentSource : String
  vertexEntry : String
  fragmentEntry : String
deriving DecidableEq

/-- Model of `ShaderModuleEntry`: a `wgpu::ShaderModule` recorded by the WGSL
source it was created from. -/
structure ShaderModuleEntry where
  source : String
deriving DecidableEq

/-- Model of `RenderPipelineEntry`. -/
structure RenderPipelineEntry where
  pipeline : RenderPipeline
  descriptor : RenderPipelineDescriptor
deriving DecidableEq

/-- Model of `PipelineError` (native variants; the io::Error payload is
abstracted away, keeping the reported path). -/
inductive PipelineError where
  | failedToLoadShaderSource (path : String)
deriving DecidableEq

/-- The mutable state of `PipelineManager`.  `nextHandle` models the slotmap
handing out fresh `RenderPipelineHandle`s. -/
structure PMState where
  shaderModules : List (String × ShaderModuleEntry)
  renderPipelines : List (Nat × RenderPipelineEntry)
  nextHandle : Nat
deriving DecidableEq

def emptyPM : PMState :=
  { shaderModules := [], renderPipelines := [], nextHandle := 0 }

/-- Model of `load_shader_module` (native branch): read the file under the
shaders directory and create a wgpu module from it. -/
def loadShaderModule (fs : FS) (path : String) :
    Except PipelineError ShaderModuleEntry :=
  match fs path with
  | some src => .ok ⟨src⟩
  | none => .error (.failedToLoadShaderSource (shadersDirJoin path))

/-- Model of `create_wgpu_render_pipeline`.  The `&mut HashMap` of shader
modules is threaded explicitly; note that on a fragment-stage failure the
vertex module inserted earlier in the same call stays in the returned map,
exactly as in the Rust code. -/
def createWgpuRenderPipeline (fs : FS)
    (shaderModules : List (String × ShaderModuleEntry))
    (descriptor : RenderPipelineDescriptor) :
    Except PipelineError RenderPipeline × List (String × ShaderModuleEntry) :=
  match alLookup shaderModules descriptor.vertexShader.path with
  | some _ => createWgpuAfterVertex fs shaderModules descriptor
  | none =>
    match loadShaderModule fs descriptor.vertexShader.path with
    | .error e => (.error e, shaderModules)
    | .ok m =>
      createWgpuAfterVertex fs
        (alInsert shaderModules descriptor.vertexShader.path m) descriptor
where
  createWgpuAfterVertex (fs : FS)
      (shaderModules : List (String × ShaderModuleEntry))
      (descriptor : RenderPipelineDescriptor) :
      Except PipelineError RenderPipeline × List (String × ShaderModuleEntry) :=
    match alLookup shaderModules descriptor.fragmentShader.path with
    | some _ => createWgpuFinish shaderModules descriptor
    | none =>
      match loadShaderModule fs descriptor.fragmentShader.path with
      | .error e => (.error e, shaderModules)
      | .ok m =>
        createWgpuFinish
          (alInsert shaderModules descriptor.fragmentShader.path m) descriptor
  createWgpuFinish
      (shaderModules : List (String × ShaderModuleEntry))
      (descriptor : RenderPipelineDescriptor) :
      Except PipelineError RenderPipeline × List (String × ShaderModuleEntry) :=
    match alLookup shaderModules descriptor.vertexShader.path,
          alLookup shaderModules descriptor.fragmentShader.path with
    | some vm, some fm =>
      (.ok { vertexSource := vm.source, fragmentSource := fm.source,
             vertexEntry := descriptor.vertexShader.functionName,
             fragmentEntry := descriptor.fragmentShader.functionName },
       shaderModules)
    | _, _ =>
      -- Unreachable: both modules were just ensured present.  The Rust code
      -- uses `unwrap()` here; the model returns an error value instead.
      (.error (.failedToLoadShaderSource descriptor.vertexShader.path),
       shaderModules)

/-- Model of `PipelineManager::create_render_pipeline`.  The state is
returned also on failure, since `&mut self.shader_modules` mutations made
before the failing `?` persist. -/
def createRenderPipeline (fs : FS) (s : PMState)
    (descriptor : RenderPipelineDescriptor) :
    Except PipelineError Nat × PMState :=
  match createWgpuRenderPipeline fs s.shaderModules descriptor with
  | (.error e, modules') => (.error e, { s with shaderModules := modules' })
  | (.ok p, modules') =>
    (.ok s.nextHandle,
     { shaderModules := modules',
       renderPipelines :=
         s.renderPipelines ++ [(s.nextHandle, ⟨p, descriptor⟩)],
       nextHandle := s.nextHandle + 1 })

/-- Model of `PipelineManager::get_render_pipeline`: a lookup on `&self`. -/
def getRenderPipeline (s : PMState) (handle : Nat) : Option RenderPipeline :=
  (alLookup s.renderPipelines handle).map (·.pipeline)

/-! ### Reload sweep (`reload_changed_pipelines`)

The sweep is additionally instrumented with a trace of events so that the
order of module invalidation and pipeline rebuild attempts can be stated;
the trace is derived information and does not feed back into the state. -/

/-- Observable steps of one reload sweep, in program order.
`moduleRemoved p` records `shader_modules.remove(p)` succeeding (the cached
module for `p` being invalidated); `rebuildSucceeded h p` / `rebuildFailed h`
record the outcome of a rebuild attempt for the pipeline with handle `h`. -/
inductive ReloadEvent where
  | moduleRemoved (path : String)
  | moduleReloaded (path : String)
  | moduleReloadFailed (path : String)
  | rebuildSucceeded (handle : Nat) (pipeline : RenderPipeline)
  | rebuildFailed (handle : Nat)
deriving DecidableEq

/-- The `for render_pipeline in self.render_pipelines.values_mut()` loop of
`reload_changed_pipelines`: every pipeline whose vertex or fragment shader
path equals the changed path is rebuilt with `create_wgpu_render_pipeline`,
replacing its pipeline object on success and leaving it untouched on
failure.  The shader-module map is threaded through because each rebuild may
insert modules. -/
def rebuildPass (fs : FS) (path : String) :
    List (Nat × RenderPipelineEntry) → List (String × ShaderModuleEntry) →
    List (Nat × RenderPipelineEntry) × List (String × ShaderModuleEntry) ×
      List ReloadEvent
  | [], modules => ([], modules, [])
  | (h, entry) :: rest, modules =>
    if entry.descriptor.vertexShader.path = path ∨
        entry.descriptor.fragmentShader.path = path then
      match createWgpuRenderPipeline fs modules entry.descriptor with
      | (.ok p, modules') =>
        let (rest', modules'', evs) := rebuildPass fs path rest modules'
        ((h, { entry with pipeline := p }) :: rest', modules'',
         .rebuildSucceeded h p :: evs)
      | (.error _, modules') =>
        let (rest', modules'', evs) := rebuildPass fs path rest modules'
        ((h, entry) :: rest', modules'', .rebuildFailed h :: evs)
    else
      let (rest', modules'', evs) := rebuildPass fs path rest modules
      ((h, entry) :: rest', modules'', evs)

/-- The body of the `for path in self.shader_change_rx.try_iter().unique()`
loop for one changed path: if a module for the path is cached, it is removed
and reloaded in isolation first, and a failed isolated reload skips the
pipeline loop (`continue`, keeping pipelines outdated). -/
def processOneChange (fs : FS) (s : PMState) (path : String) :
    PMState × List ReloadEvent :=
  match alLookup s.shaderModules path with
  | some _ =>
    let removed := alEraseKey s.shaderModules path
    match loadShaderModule fs path with
    | .ok m =>
      let modules := alInsert removed path m
      let (rps, modules', evs) := rebuildPass fs path s.renderPipelines modules
      ({ s with shaderModules := modules', renderPipelines := rps },
       .moduleRemoved path :: .moduleReloaded path :: evs)
    | .error _ =>
      ({ s with shaderModules := removed },
       [.moduleRemoved path, .moduleReloadFailed path])
  | none =>
    let (rps, modules', evs) := rebuildPass fs path s.renderPipelines s.shaderModules
    ({ s with shaderModules := modules', renderPipelines := rps }, evs)

def reloadLoop (fs : FS) (s : PMState) : List String → PMState × List ReloadEvent
  | [] => (s, [])
  | p :: rest =>
    let (s', t₁) := processOneChange fs s p
    let (s'', t₂) := reloadLoop fs s' rest
    (s'', t₁ ++ t₂)

def dedupFirstAux (seen : List String) : List String → List String
  | [] => []
  | p :: rest =>
    if p ∈ seen then dedupFirstAux seen rest
    else p :: dedupFirstAux (p :: seen) rest

/-- Model of `itertools::unique()` over the drained channel: keep the first
occurrence of each path. -/
def dedupFirst (l : List String) : List String := dedupFirstAux [] l

/-- Model of `PipelineManager::reload_changed_pipelines` (native branch).
`changed` is the list of changed relative shader paths drained from the
watcher channel in arrival order. -/
def reloadChangedPipelines (fs : FS) (changed : List String) (s : PMState) :
    PMState × List ReloadEvent :=
  reloadLoop fs s (dedupFirst changed)

/-- A rebuild was attempted for handle `h` somewhere in the trace. -/
def rebuildAttemptedFor (t : List ReloadEvent) (h : Nat) : Bool :=
  t.any fun ev =>
    match ev with
    | .rebuildSucceeded h' _ => h' = h
    | .rebuildFailed h' => h' = h
    | _ => false

def isRebuildEvent : ReloadEvent → Bool
  | .rebuildSucceeded _ _ => true
  | .rebuildFailed _ => true
  | _ => false

def isModuleRemovedEvent : ReloadEvent → Bool
  | .moduleRemoved _ => true
  | _ => false

/-- Some event satisfying `p` occurs strictly before some event satisfying
`q` in the trace. -/
def occursBefore (p q : ReloadEvent → Bool) : List ReloadEvent → Bool
  | [] => false
  | e :: rest => (p e && rest.any q) || occursBefore p q rest

/-- Handles stored in the pipeline slotmap are always below the slotmap's
fresh-handle counter; this is what makes `nextHandle` handles genuinely
never-created. -/
def PMState.HandlesBounded (s : PMState) : Prop :=
  ∀ h e, (h, e) ∈ s.renderPipelines → h < s.nextHandle

example : createRenderPipeline (fun _ => none) emptyPM
    ⟨"p", ⟨"v.wgsl", "vs"⟩, ⟨"f.wgsl", "fs"⟩⟩ =
    (.error (.failedToLoadShaderSource "terrain_and_stuff/shaders/v.wgsl"),
     emptyPM) := by decide

example :
    (createRenderPipeline (fun p => if p = "v.wgsl" ∨ p = "f.wgsl" then some ("src of " ++ p) else none)
      emptyPM ⟨"p", ⟨"v.wgsl", "vs"⟩, ⟨"f.wgsl", "fs"⟩⟩).1 = .ok 0 := by decide

/-! ### Concrete reload scenarios -/

/-- Filesystem before the sweeps of the broken-pipeline scenario. -/
def fsC4Initial : FS := fun p =>
  if p = "a" then some "A0" else if p = "b" then some "B0" else none

/-- During sweep one the fragment shader file `b` is unreadable while `a`
has new content. -/
def fsC4Sweep1 : FS := fun p =>
  if p = "a" then some "A1" else none

/-- During sweep two everything is readable again (`b` is fixed) and an
unrelated shader `c` exists. -/
def fsC4Sweep2 : FS := fun p =>
  if p = "a" then some "A1" else if p = "b" then some "B1"
  else if p = "c" then some "C0" else none

def descC4 : RenderPipelineDescriptor :=
  ⟨"pipelineC4", ⟨"a", "vsMain"⟩, ⟨"b", "fsMain"⟩⟩

def stateC4 : PMState := (createRenderPipeline fsC4Initial emptyPM descC4).2

def sweepC4One : PMState × List ReloadEvent :=
  reloadChangedPipelines fsC4Sweep1 ["b", "a"] stateC4

def sweepC4Two : PMState × List ReloadEvent :=
  reloadChangedPipelines fsC4Sweep2 ["c"] sweepC4One.1

example : sweepC4One.2 =
    [.moduleRemoved "b", .moduleReloadFailed "b",
     .moduleRemoved "a", .moduleReloaded "a", .rebuildFailed 0] := by decide

example : sweepC4Two.2 = [] := by decide

example : getRenderPipeline sweepC4Two.1 0 =
    some ⟨"A0", "B0", "vsMain", "fsMain"⟩ := by decide

/-- Filesystem before the interleaving scenario sweep. -/
def fsC5Initial : FS := fun p =>
  if p = "x" then some "X0" else if p = "y" then some "Y0" else none

/-- Both `x` and `y` have new content when the sweep runs. -/
def fsC5Sweep : FS := fun p =>
  if p = "x" then some "X1" else if p = "y" then some "Y1" else none

def descC5 : RenderPipelineDescriptor :=
  ⟨"pipelineC5", ⟨"x", "vsMain"⟩, ⟨"y", "fsMain"⟩⟩

def stateC5 : PMState := (createRenderPipeline fsC5Initial emptyPM descC5).2

def sweepC5 : PMState × List ReloadEvent :=
  reloadChangedPipelines fsC5Sweep ["x", "y"] stateC5

example : sweepC5.2 =
    [.moduleRemoved "x", .moduleReloaded "x",
     .rebuildSucceeded 0 ⟨"X1", "Y0", "vsMain", "fsMain"⟩,
     .moduleRemoved "y", .moduleReloaded "y",
     .rebuildSucceeded 0 ⟨"X1", "Y1", "vsMain", "fsMain"⟩] := by decide

/-! ## ShaderCache model (`src/resource_managers/shader_cache.rs`)

External effects are collected in `ShaderEnv`:

* `resolvePath` models `resolve_path` (native: join with `SHADERS_DIR` and
  canonicalize, which fails when the file does not exist);
* `rawShaderSource` models `raw_shader_source` on an already-resolved path;
* `preprocessorData` models `naga_oil::compose::get_preprocessor_data`, a
  pure function of the source text returning the optional module name and the
  raw (still quoted) import strings; the shader-def symbols it also returns
  are passed through opaquely by the Rust code and are dropped here;
* `composeOk` models whether `Composer::add_composable_module` accepts a
  source, `makeModuleOk` whether `Composer::make_naga_module` accepts it;
* `composerPath` models `composer_path` (resolved path back to the
  slash-normalized path relative to `SHADERS_DIR`). -/

structure ShaderEnv where
  resolvePath : String → Option String
  rawShaderSource : String → Option String
  preprocessorData : String → Option String × List String
  composeOk : String → Bool
  makeModuleOk : String → Bool
  composerPath : String → String

/-- Model of `ShaderCacheError` (native variants; payloads beyond the path
are dropped). -/
inductive ShaderCacheError where
  | failedToLoadShaderSource (path : String)
  | namedModuleNotSupported (path : String)
  | nagaOilComposeError (path : String)
deriving DecidableEq

/-- Model of `ShaderSourceEntry`.  `direct_dependents` is a `HashSet` in the
source; it is modelled as a duplicate-free list in insertion order. -/
structure ShaderSourceEntry where
  filePath : String
  source : String
  directDependents : List Nat
deriving DecidableEq

/-- The mutable state of `ShaderCache`.  The naga_oil composer is modelled
by the list of composable-module paths it currently knows
(`composerModules`); a compiled `wgpu::ShaderModule` is recorded by the
source text it was composed from. -/
structure ShaderCacheState where
  composerModules : List String
  shaderSources : List (Nat × ShaderSourceEntry)
  shaderModules : List (Nat × String)
  shaderSourcesPerPath : List (String × Nat)
  nextShaderHandle : Nat
deriving DecidableEq

def emptyCache : ShaderCacheState :=
  { composerModules := [], shaderSources := [], shaderModules := [],
    shaderSourcesPerPath := [], nextShaderHandle := 0 }

/-- Rust `str::trim_start_matches("\"")` + `trim_end_matches("\"")` applied
to an import string. -/
def trimQuotes (s : String) : String :=
  String.mk
    (((s.toList.dropWhile fun c => c = '"').reverse.dropWhile
        fun c => c = '"').reverse)

/-- The `for parent_shader in parent_shaders` loop at the end of
`get_or_load_shader_source`: register the new handle as a direct dependent
of every import it resolved.  `HashSet::insert` adds the handle only if it
is not present yet. -/
def addDependents (s : ShaderCacheState) (parents : List Nat) (h : Nat) :
    ShaderCacheState :=
  parents.foldl
    (fun st p =>
      { st with
          shaderSources := alUpdate st.shaderSources p fun e =>
            if h ∈ e.directDependents then e
            else { e with directDependents := e.directDependents ++ [h] } })
    s

/-- One step of the `required_imports.iter().map(..).collect::<Result<..>>()`
loop of `get_or_load_shader_source`: load one import through `load` (the
recursive call at the current fuel), threading the cache state and keeping
the first error. -/
def importFoldStep
    (load : ShaderCacheState → String →
      Option (ShaderCacheState × Except ShaderCacheError Nat)) :
    Option (ShaderCacheState × Except ShaderCacheError (List Nat)) → String →
    Option (ShaderCacheState × Except ShaderCacheError (List Nat))
  | none, _ => none
  | some (s', .error e), _ => some (s', .error e)
  | some (s', .ok parents), imp =>
    match load s' imp with
    | none => none
    | some (s'', .error e) => some (s'', .error e)
    | some (s'', .ok h) => some (s'', .ok (parents ++ [h]))

/-- Model of `ShaderCache::get_or_load_shader_source`, indexed by fuel since
the Rust recursion has no cycle guard.  A `none` result means the recursion
did not terminate within `fuel` nested import resolutions.  The state is
returned on errors as well because `&mut self` mutations made while loading
imports persist when a later step fails. -/
def getOrLoadShaderSourceF (env : ShaderEnv) :
    Nat → ShaderCacheState → String →
    Option (ShaderCacheState × Except ShaderCacheError Nat)
  | 0, _, _ => none
  | fuel + 1, s, path =>
    match env.resolvePath path with
    | none => some (s, .error (.failedToLoadShaderSource path))
    | some rp =>
      match alLookup s.shaderSourcesPerPath rp with
      | some h => some (s, .ok h)
      | none =>
        match env.rawShaderSource rp with
        | none => some (s, .error (.failedToLoadShaderSource rp))
        | some src =>
          if (env.preprocessorData src).1.isSome then
            some (s, .error (.namedModuleNotSupported rp))
          else
            match
              ((env.preprocessorData src).2.map trimQuotes).foldl
                (importFoldStep fun s' imp =>
                  getOrLoadShaderSourceF env fuel s' imp)
                (some (s, .ok []))
            with
            | none => none
            | some (s₁, .error e) => some (s₁, .error e)
            | some (s₁, .ok parents) =>
              if env.composeOk src then
                let h := s₁.nextShaderHandle
                let s₂ :=
                  { s₁ with
                      composerModules :=
                        s₁.composerModules ++ [env.composerPath rp],
                      shaderSources :=
                        s₁.shaderSources ++ [(h, ⟨rp, src, []⟩)],
                      shaderSourcesPerPath :=
                        alInsert s₁.shaderSourcesPerPath rp h,
                      nextShaderHandle := h + 1 }
                some (addDependents s₂ parents h, .ok h)
              else
                some
                  ({ s₁ with
                      composerModules :=
                        s₁.composerModules.filter
                          fun c => ¬ c = env.composerPath rp },
                   .error (.nagaOilComposeError (env.composerPath rp)))

/-- The second half of `ShaderCache::get_or_load_shader_module`, after the
handle for the path is known: return early if a wgpu module for the handle
is already cached, otherwise run `make_naga_module` on the stored source.
The indexing `self.shader_sources[handle]` panics if the handle is dangling;
that (unreachable) panic is modelled as `none`, like a non-returning call. -/
def moduleCompileStep (env : ShaderEnv) (rp : String) (s : ShaderCacheState)
    (h : Nat) : Option (ShaderCacheState × Except ShaderCacheError Nat) :=
  if (alLookup s.shaderModules h).isSome then some (s, .ok h)
  else
    match alLookup s.shaderSources h with
    | none => none
    | some entry =>
      if env.makeModuleOk entry.source then
        some
          ({ s with shaderModules := s.shaderModules ++ [(h, entry.source)] },
           .ok h)
      else
        some (s, .error (.nagaOilComposeError rp))

/-- Model of `ShaderCache::get_or_load_shader_module`. -/
def getOrLoadShaderModuleF (env : ShaderEnv) (fuel : Nat)
    (s : ShaderCacheState) (path : String) :
    Option (ShaderCacheState × Except ShaderCacheError Nat) :=
  match env.resolvePath path with
  | none => some (s, .error (.failedToLoadShaderSource path))
  | some rp =>
    match
      ((match alLookup s.shaderSourcesPerPath rp with
        | some h => some (s, .ok h)
        | none => getOrLoadShaderSourceF env fuel s rp) :
        Option (ShaderCacheState × Except ShaderCacheError Nat))
    with
    | none => none
    | some (s₁, .error e) => some (s₁, .error e)
    | some (s₁, .ok h) => moduleCompileStep env rp s₁ h

/-- Model of `ShaderCache::shader_module`. -/
def shaderModuleOf (s : ShaderCacheState) (handle : Nat) : Option String :=
  alLookup s.shaderModules handle

/-- Model of `ShaderCache::remove_shader_for_path`, indexed by fuel for the
recursion over dependents.  The entry is removed before its dependents are
visited, and a dependent is recursed into only while its record still
exists, exactly as in the Rust code. -/
def removeShaderForPathF (env : ShaderEnv) :
    Nat → ShaderCacheState → String → List Nat × ShaderCacheState
  | 0, s, _ => ([], s)
  | fuel + 1, s, path =>
    match env.resolvePath path with
    | none => ([], s)
    | some rp =>
      match alLookup s.shaderSourcesPerPath rp with
      | none => ([], s)
      | some handle =>
        let s₁ :=
          { s with shaderSourcesPerPath := alEraseKey s.shaderSourcesPerPath rp }
        let step :=
          match alLookup s₁.shaderSources handle with
          | none => ([handle], s₁)
          | some entry =>
            let s₂ :=
              { s₁ with shaderSources := alEraseKey s₁.shaderSources handle }
            entry.directDependents.foldl
              (fun (acc : List Nat × ShaderCacheState) child =>
                match alLookup acc.2.shaderSources child with
                | some childEntry =>
                  let (removed, s') :=
                    removeShaderForPathF env fuel acc.2 childEntry.filePath
                  (acc.1 ++ removed, s')
                | none => acc)
              ([handle], s₂)
        let s₃ :=
          { step.2 with
              composerModules :=
                step.2.composerModules.filter
                  fun c => ¬ c = env.composerPath rp,
              shaderModules := alEraseKey step.2.shaderModules handle }
        (step.1, s₃)

/-- Fuel sufficient for `remove_shader_for_path`: each nested removal first
deletes a record, so recursion depth is bounded by the number of records. -/
def removeShaderForPath (env : ShaderEnv) (s : ShaderCacheState)
    (path : String) : List Nat × ShaderCacheState :=
  removeShaderForPathF env (s.shaderSources.length + 1) s path

/-! ### Concrete shader cache scenarios -/

/-- Environment with modules `a`, `b`, `c` where `a` imports `b` and `b`
imports `c`.  `resolvePath` canonicalizes a relative name to a leading-slash
form and is the identity on already-canonical names, mirroring
`fs::canonicalize`; the preprocessor data of each source lists the raw
(quoted) naga_oil imports. -/
def chainEnv : ShaderEnv where
  resolvePath p :=
    if p = "a" ∨ p = "/a" then some "/a"
    else if p = "b" ∨ p = "/b" then some "/b"
    else if p = "c" ∨ p = "/c" then some "/c"
    else none
  rawShaderSource p :=
    if p = "/a" then some "srcA" else if p = "/b" then some "srcB"
    else if p = "/c" then some "srcC" else none
  preprocessorData src :=
    if src = "srcA" then (none, ["\"b\""])
    else if src = "srcB" then (none, ["\"c\""])
    else (none, [])
  composeOk _ := true
  makeModuleOk _ := true
  composerPath p :=
    if p = "/a" then "a" else if p = "/b" then "b"
    else if p = "/c" then "c" else p

/-- The cache state after compiling module `a` (which pulls in `b` and `c`). -/
def chainState : ShaderCacheState :=
  ((getOrLoadShaderSourceF chainEnv 8 emptyCache "a").getD
    (emptyCache, .ok 0)).1

example : getOrLoadShaderSourceF chainEnv 8 emptyCache "a" =
    some (chainState, .ok 2) := by decide

example : chainState.shaderSources =
    [(0, ⟨"/c", "srcC", [1]⟩), (1, ⟨"/b", "srcB", [2]⟩),
     (2, ⟨"/a", "srcA", []⟩)] := by decide

example : (removeShaderForPath chainEnv chainState "c").1 = [0, 1, 2] := by
  decide

/-- Environment with a single module `a` whose source imports `a` itself. -/
def selfImportEnv : ShaderEnv where
  resolvePath p := some p
  rawShaderSource p := if p = "a" then some "srcSelf" else none
  preprocessorData src :=
    if src = "srcSelf" then (none, ["\"a\""]) else (none, [])
  composeOk _ := true
  makeModuleOk _ := true
  composerPath p := p

example : getOrLoadShaderSourceF selfImportEnv 50 emptyCache "a" = none := by
  decide

/-! ## Lemmas about the import fold -/

theorem importFold_none
    (load : ShaderCacheState → String →
      Option (ShaderCacheState × Except ShaderCacheError Nat))
    (l : List String) : l.foldl (importFoldStep load) none = none := by
  induction l with
  | nil => rfl
  | cons imp rest ih => simpa [importFoldStep] using ih

theorem importFold_error
    (load : ShaderCacheState → String →
      Option (ShaderCacheState × Except ShaderCacheError Nat))
    (s : ShaderCacheState) (e : ShaderCacheError) (l : List String) :
    l.foldl (importFoldStep load) (some (s, .error e)) = some (s, .error e) := by
  induction l with
  | nil => rfl
  | cons imp rest ih => simpa [importFoldStep] using ih

theorem importFold_cons
    (load : ShaderCacheState → String →
      Option (ShaderCacheState × Except ShaderCacheError Nat))
    (s : ShaderCacheState) (parents : List Nat) (imp : String)
    (rest : List String) :
    (imp :: rest).foldl (importFoldStep load) (some (s, .ok parents)) =
      match load s imp with
      | none => none
      | some (s', .error e) => some (s', .error e)
      | some (s', .ok h) =>
        rest.foldl (importFoldStep load) (some (s', .ok (parents ++ [h]))) := by
  cases hl : load s imp with
  | none => simp [List.foldl, importFoldStep, hl, importFold_none]
  | some r =>
    obtain ⟨s', r⟩ := r
    cases r with
    | error e => simp [List.foldl, importFoldStep, hl, importFold_error]
    | ok h => simp [List.foldl, importFoldStep, hl]

/-- C3: contrary to the claim, compiling a module whose import graph
contains a cycle does not terminate with a cycle-detection error:
`get_or_load_shader_source` recurses on imports with no cycle guard and
registers the module only after its imports resolve, so a self-importing
module makes the recursion run forever (a stack overflow in the Rust code;
fuel exhaustion at every fuel in this embedding).  No cycle-detected error
variant exists in `ShaderCacheError`. -/
theorem c3_cyclic_import_diverges (fuel : Nat) :
    getOrLoadShaderSourceF selfImportEnv fuel emptyCache "a" = none := by
  induction fuel with
  | zero => rfl
  | succ n ih =>
    have h₁ : selfImportEnv.resolvePath "a" = some "a" := rfl
    have h₂ : alLookup emptyCache.shaderSourcesPerPath "a" = (none : Option Nat) := rfl
    have h₃ : selfImportEnv.rawShaderSource "a" = some "srcSelf" := rfl
    have h₄ : selfImportEnv.preprocessorData "srcSelf" = (none, ["\"a\""]) := rfl
    have h₅ : List.map trimQuotes ["\"a\""] = ["a"] := rfl
    rw [getOrLoadShaderSourceF]
    simp [h₁, h₂, h₃, h₄, h₅, importFoldStep, ih]

/-! ## Lemmas about the shader cache -/

theorem addDependents_perPath (parents : List Nat) :
    ∀ (s : ShaderCacheState) (h : Nat),
      (addDependents s parents h).shaderSourcesPerPath =
        s.shaderSourcesPerPath := by
  induction parents with
  | nil => intro s h; rfl
  | cons p rest ih =>
    intro s h
    rw [addDependents, List.foldl_cons, ← addDependents, ih]

theorem addDependents_modules (parents : List Nat) :
    ∀ (s : ShaderCacheState) (h : Nat),
      (addDependents s parents h).shaderModules = s.shaderModules := by
  induction parents with
  | nil => intro s h; rfl
  | cons p rest ih =>
    intro s h
    rw [addDependents, List.foldl_cons, ← addDependents, ih]

/-- On success, `get_or_load_shader_source` leaves the per-path table
pointing the resolved path at the returned handle (either it already did,
or the fresh record was just registered there). -/
theorem sourceLoad_perPath (env : ShaderEnv) (fuel : Nat)
    (s s₁ : ShaderCacheState) (q rq : String) (h : Nat)
    (hres : env.resolvePath q = some rq)
    (hcall : getOrLoadShaderSourceF env fuel s q = some (s₁, .ok h)) :
    alLookup s₁.shaderSourcesPerPath rq = some h := by
  cases fuel with
  | zero => exact absurd hcall (by simp [getOrLoadShaderSourceF])
  | succ n =>
    rw [getOrLoadShaderSourceF] at hcall
    split at hcall
    · simp at hcall
    · rename_i rp hres'
      rw [hres] at hres'
      injection hres' with hrp
      subst hrp
      split at hcall
      · rename_i h' hpp
        simp only [Option.some.injEq, Prod.mk.injEq] at hcall
        obtain ⟨rfl, hh⟩ := hcall
        cases hh
        exact hpp
      · rename_i hpp
        split at hcall
        · simp at hcall
        · rename_i src hraw
          split at hcall
          · simp at hcall
          · rename_i hname
            split at hcall
            · simp at hcall
            · simp at hcall
            · rename_i s' parents hfold
              split at hcall
              · simp only [Option.some.injEq, Prod.mk.injEq] at hcall
                obtain ⟨rfl, hh⟩ := hcall
                cases hh
                rw [addDependents_perPath]
                exact alLookup_insert_self _ _ _
              · simp at hcall

/-- Postcondition of the make-module half of `get_or_load_shader_module`. -/
theorem moduleCompileStep_post (env : ShaderEnv) (rp : String)
    (s₀ : ShaderCacheState) (h₀ : Nat) (s₁ : ShaderCacheState) (h : Nat)
    (hcall : moduleCompileStep env rp s₀ h₀ = some (s₁, .ok h)) :
    h = h₀ ∧ s₁.shaderSourcesPerPath = s₀.shaderSourcesPerPath ∧
      (alLookup s₁.shaderModules h).isSome = true := by
  rw [moduleCompileStep] at hcall
  split at hcall
  · rename_i hm
    simp only [Option.some.injEq, Prod.mk.injEq] at hcall
    obtain ⟨rfl, hh⟩ := hcall
    cases hh
    exact ⟨rfl, rfl, hm⟩
  · rename_i hm
    split at hcall
    · simp at hcall
    · rename_i entry hsrc
      split at hcall
      · rename_i hok
        simp only [Option.some.injEq, Prod.mk.injEq] at hcall
        obtain ⟨rfl, hh⟩ := hcall
        cases hh
        refine ⟨rfl, rfl, ?_⟩
        have hmn : alLookup s₀.shaderModules h₀ = none :=
          Option.not_isSome_iff_eq_none.mp hm
        show (alLookup (s₀.shaderModules ++ [(h₀, entry.source)]) h₀).isSome = true
        rw [alLookup_append_right _ _ _ hmn]
        simp [alLookup]
      · simp at hcall

/-- An environment whose path resolution is stable: resolving an
already-resolved path yields it unchanged (`fs::canonicalize` is idempotent
on the canonical paths it produces). -/
def ShaderEnv.ResolveStable (env : ShaderEnv) : Prop :=
  ∀ p rp, env.resolvePath p = some rp → env.resolvePath rp = some rp

/-- After a successful `get_or_load_shader_module`, the resolved path is
cached with the returned handle and a wgpu module for that handle exists. -/
theorem moduleLoad_cached (env : ShaderEnv) (fuel : Nat)
    (s s₁ : ShaderCacheState) (path : String) (h : Nat)
    (hstable : env.ResolveStable)
    (hcall : getOrLoadShaderModuleF env fuel s path = some (s₁, .ok h)) :
    ∃ rp, env.resolvePath path = some rp ∧
      alLookup s₁.shaderSourcesPerPath rp = some h ∧
      (alLookup s₁.shaderModules h).isSome = true := by
  rw [getOrLoadShaderModuleF] at hcall
  split at hcall
  · simp at hcall
  · rename_i rp hres
    refine ⟨rp, hres, ?_⟩
    split at hcall
    · simp at hcall
    · simp at hcall
    · rename_i s₀ h₀ hstep
      obtain ⟨rfl, hpp', hmod⟩ := moduleCompileStep_post _ _ _ _ _ _ hcall
      rw [hpp']
      split at hstep
      · rename_i h₁ hpp
        simp only [Option.some.injEq, Prod.mk.injEq] at hstep
        obtain ⟨rfl, hh⟩ := hstep
        cases hh
        exact ⟨hpp, hmod⟩
      · exact ⟨sourceLoad_perPath env fuel s s₀ rp rp h
          (hstable path rp hres) hstep, hmod⟩

/-! ## Lemmas about the rebuild pass -/

/-- Every pipeline entry survives the rebuild pass under its handle with its
descriptor intact; its pipeline object is either untouched or the object
carried by a `rebuildSucceeded` event for that handle. -/
theorem rebuildPass_lookup (fs : FS) (path : String) :
    ∀ (l : List (Nat × RenderPipelineEntry))
      (modules : List (String × ShaderModuleEntry)) (h : Nat)
      (e : RenderPipelineEntry),
      alLookup l h = some e →
      ∃ e', alLookup (rebuildPass fs path l modules).1 h = some e' ∧
        e'.descriptor = e.descriptor ∧
        (e'.pipeline = e.pipeline ∨
          ReloadEvent.rebuildSucceeded h e'.pipeline ∈
            (rebuildPass fs path l modules).2.2) := by
  intro l
  induction l with
  | nil => intro modules h e he; simp [alLookup] at he
  | cons kv rest ih =>
    obtain ⟨k, entry⟩ := kv
    intro modules h e he
    rw [alLookup] at he
    simp only [rebuildPass]
    by_cases hk : h = k
    · subst hk
      rw [if_pos rfl] at he
      injection he with he
      subst he
      split
      · rename_i hcond
        split
        · rename_i p modules' hc
          refine ⟨{ entry with pipeline := p }, ?_, rfl, .inr ?_⟩
          · simp [alLookup]
          · simp
        · rename_i err modules' hc
          refine ⟨entry, ?_, rfl, .inl rfl⟩
          simp [alLookup]
      · refine ⟨entry, ?_, rfl, .inl rfl⟩
        simp [alLookup]
    · rw [if_neg hk] at he
      split
      · rename_i hcond
        split
        · rename_i p modules' hc
          obtain ⟨e', hl, hd, hp⟩ := ih modules' h e he
          refine ⟨e', ?_, hd, ?_⟩
          · simp [alLookup, hk, hl]
          · rcases hp with hp | hp
            · exact .inl hp
            · exact .inr (by simp [hp])
        · rename_i err modules' hc
          obtain ⟨e', hl, hd, hp⟩ := ih modules' h e he
          refine ⟨e', ?_, hd, ?_⟩
          · simp [alLookup, hk, hl]
          · rcases hp with hp | hp
            · exact .inl hp
            · exact .inr (by simp [hp])
      · obtain ⟨e', hl, hd, hp⟩ := ih modules h e he
        refine ⟨e', ?_, hd, ?_⟩
        · simp [alLookup, hk, hl]
        · rcases hp with hp | hp
          · exact .inl hp
          · exact .inr hp

/-- The rebuild pass never introduces new handles: every entry of the
output list reuses a key of the input list. -/
theorem rebuildPass_mem_keys (fs : FS) (path : String) :
    ∀ (l : List (Nat × RenderPipelineEntry))
      (modules : List (String × ShaderModuleEntry)) (h : Nat)
      (e' : RenderPipelineEntry),
      (h, e') ∈ (rebuildPass fs path l modules).1 →
      ∃ e, (h, e) ∈ l := by
  intro l
  induction l with
  | nil => intro modules h e' hmem; simp [rebuildPass] at hmem
  | cons kv rest ih =>
    obtain ⟨k, entry⟩ := kv
    intro modules h e' hmem
    simp only [rebuildPass] at hmem
    split at hmem
    · split at hmem
      · rename_i p modules' hc
        rcases List.mem_cons.mp hmem with hh | hh
        · exact ⟨entry,
            by rw [Prod.mk.injEq] at hh; rw [hh.1]; exact List.mem_cons_self _ _⟩
        · obtain ⟨e, he⟩ := ih modules' h e' hh
          exact ⟨e, List.mem_cons_of_mem _ he⟩
      · rename_i err modules' hc
        rcases List.mem_cons.mp hmem with hh | hh
        · exact ⟨entry,
            by rw [Prod.mk.injEq] at hh; rw [hh.1]; exact List.mem_cons_self _ _⟩
        · obtain ⟨e, he⟩ := ih modules' h e' hh
          exact ⟨e, List.mem_cons_of_mem _ he⟩
    · rcases List.mem_cons.mp hmem with hh | hh
      · exact ⟨entry,
          by rw [Prod.mk.injEq] at hh; rw [hh.1]; exact List.mem_cons_self _ _⟩
      · obtain ⟨e, he⟩ := ih modules h e' hh
        exact ⟨e, List.mem_cons_of_mem _ he⟩

/-- A rebuild is attempted in the pass exactly for the handles of entries
whose vertex or fragment shader path equals the changed path. -/
theorem rebuildPass_attempted (fs : FS) (path : String) :
    ∀ (l : List (Nat × RenderPipelineEntry))
      (modules : List (String × ShaderModuleEntry)) (h : Nat),
      rebuildAttemptedFor (rebuildPass fs path l modules).2.2 h = true ↔
        ∃ e, (h, e) ∈ l ∧
          (e.descriptor.vertexShader.path = path ∨
            e.descriptor.fragmentShader.path = path) := by
  intro l
  induction l with
  | nil =>
    intro modules h
    simp [rebuildPass, rebuildAttemptedFor]
  | cons kv rest ih =>
    obtain ⟨k, entry⟩ := kv
    intro modules h
    simp only [rebuildPass]
    split
    · rename_i hcond
      split
      · rename_i p modules' hc
        constructor
        · intro hat
          simp only [rebuildAttemptedFor, List.any_cons, Bool.or_eq_true] at hat
          rcases hat with hat | hat
          · simp only [decide_eq_true_eq] at hat
            exact ⟨entry, by rw [hat]; exact List.mem_cons_self _ _, hcond⟩
          · obtain ⟨e, hmem, he⟩ := (ih modules' h).mp hat
            exact ⟨e, List.mem_cons_of_mem _ hmem, he⟩
        · intro ⟨e, hmem, he⟩
          rcases List.mem_cons.mp hmem with hh | hh
          · rw [Prod.mk.injEq] at hh
            simp [rebuildAttemptedFor, hh.1]
          · have := (ih modules' h).mpr ⟨e, hh, he⟩
            simp only [rebuildAttemptedFor, List.any_cons, Bool.or_eq_true]
            exact Or.inr this
      · rename_i err modules' hc
        constructor
        · intro hat
          simp only [rebuildAttemptedFor, List.any_cons, Bool.or_eq_true] at hat
          rcases hat with hat | hat
          · simp only [decide_eq_true_eq] at hat
            exact ⟨entry, by rw [hat]; exact List.mem_cons_self _ _, hcond⟩
          · obtain ⟨e, hmem, he⟩ := (ih modules' h).mp hat
            exact ⟨e, List.mem_cons_of_mem _ hmem, he⟩
        · intro ⟨e, hmem, he⟩
          rcases List.mem_cons.mp hmem with hh | hh
          · rw [Prod.mk.injEq] at hh
            simp [rebuildAttemptedFor, hh.1]
          · have := (ih modules' h).mpr ⟨e, hh, he⟩
            simp only [rebuildAttemptedFor, List.any_cons, Bool.or_eq_true]
            exact Or.inr this
    · rename_i hcond
      rw [ih modules h]
      constructor
      · intro ⟨e, hmem, he⟩
        exact ⟨e, List.mem_cons_of_mem _ hmem, he⟩
      · intro ⟨e, hmem, he⟩
        rcases List.mem_cons.mp hmem with hh | hh
        · rw [Prod.mk.injEq] at hh
          exact absurd (hh.2 ▸ he) hcond
        · exact ⟨e, hh, he⟩

/-- The rebuild pass emits only rebuild events, never module removals. -/
theorem rebuildPass_no_removed (fs : FS) (path : String) :
    ∀ (l : List (Nat × RenderPipelineEntry))
      (modules : List (String × ShaderModuleEntry)) (ev : ReloadEvent),
      ev ∈ (rebuildPass fs path l modules).2.2 →
      isModuleRemovedEvent ev = false := by
  intro l
  induction l with
  | nil => intro modules ev hmem; simp [rebuildPass] at hmem
  | cons kv rest ih =>
    obtain ⟨k, entry⟩ := kv
    intro modules ev hmem
    simp only [rebuildPass] at hmem
    split at hmem
    · split at hmem
      · rename_i p modules' hc
        rcases List.mem_cons.mp hmem with hh | hh
        · rw [hh]; rfl
        · exact ih modules' ev hh
      · rename_i err modules' hc
        rcases List.mem_cons.mp hmem with hh | hh
        · rw [hh]; rfl
        · exact ih modules' ev hh
    · exact ih modules ev hmem

/-! ## Lemmas about one changed path and the whole sweep -/

/-- Processing one changed path preserves every pipeline entry under its
handle with its descriptor intact; the pipeline object changes only to an
object carried by a `rebuildSucceeded` event for that handle. -/
theorem processOne_lookup (fs : FS) (s : PMState) (p : String) (h : Nat)
    (e : RenderPipelineEntry)
    (he : alLookup s.renderPipelines h = some e) :
    ∃ e', alLookup (processOneChange fs s p).1.renderPipelines h = some e' ∧
      e'.descriptor = e.descriptor ∧
      (e'.pipeline = e.pipeline ∨
        ReloadEvent.rebuildSucceeded h e'.pipeline ∈
          (processOneChange fs s p).2) := by
  rw [processOneChange]
  split
  · split
    · rename_i m hload
      obtain ⟨e', hl, hd, hp⟩ := rebuildPass_lookup fs p s.renderPipelines
        (alInsert (alEraseKey s.shaderModules p) p m) h e he
      refine ⟨e', hl, hd, ?_⟩
      rcases hp with hp | hp
      · exact .inl hp
      · exact .inr (List.mem_cons_of_mem _ (List.mem_cons_of_mem _ hp))
    · exact ⟨e, he, rfl, .inl rfl⟩
  · obtain ⟨e', hl, hd, hp⟩ := rebuildPass_lookup fs p s.renderPipelines
      s.shaderModules h e he
    exact ⟨e', hl, hd, hp⟩

theorem processOne_nextHandle (fs : FS) (s : PMState) (p : String) :
    (processOneChange fs s p).1.nextHandle = s.nextHandle := by
  rw [processOneChange]
  split
  · split
    · rfl
    · rfl
  · rfl

/-- Processing one changed path introduces no new pipeline handles. -/
theorem processOne_mem_keys (fs : FS) (s : PMState) (p : String) (h : Nat)
    (e' : RenderPipelineEntry)
    (hmem : (h, e') ∈ (processOneChange fs s p).1.renderPipelines) :
    ∃ e, (h, e) ∈ s.renderPipelines := by
  rw [processOneChange] at hmem
  split at hmem
  · split at hmem
    · rename_i m hload
      exact rebuildPass_mem_keys fs p s.renderPipelines _ h e' hmem
    · exact ⟨e', hmem⟩
  · exact rebuildPass_mem_keys fs p s.renderPipelines _ h e' hmem

theorem occursBefore_eq_false {q : ReloadEvent → Bool}
    (p : ReloadEvent → Bool) (l : List ReloadEvent)
    (hq : ∀ ev ∈ l, q ev = false) : occursBefore p q l = false := by
  induction l with
  | nil => rfl
  | cons e rest ih =>
    rw [occursBefore]
    have hrest : rest.any q = false := by
      rw [List.any_eq_false]
      intro ev hev
      simp [hq ev (List.mem_cons_of_mem _ hev)]
    rw [hrest]
    simp [ih fun ev hev => hq ev (List.mem_cons_of_mem _ hev)]

/-- Within the processing of a single changed path, no module invalidation
happens after a rebuild attempt: the removal (if any) comes first. -/
theorem processOne_removal_first (fs : FS) (s : PMState) (p : String) :
    occursBefore isRebuildEvent isModuleRemovedEvent
      (processOneChange fs s p).2 = false := by
  rw [processOneChange]
  split
  · split
    · rename_i m hload
      rw [occursBefore, occursBefore]
      have hevs : ∀ ev ∈ (rebuildPass fs p s.renderPipelines
          (alInsert (alEraseKey s.shaderModules p) p m)).2.2,
          isModuleRemovedEvent ev = false :=
        fun ev hev => rebuildPass_no_removed fs p _ _ ev hev
      have hrest : (rebuildPass fs p s.renderPipelines
          (alInsert (alEraseKey s.shaderModules p) p m)).2.2.any
            isModuleRemovedEvent = false := by
        rw [List.any_eq_false]
        intro ev hev
        simp [hevs ev hev]
      simp [isRebuildEvent, occursBefore_eq_false _ _ hevs, hrest]
    · rfl
  · exact occursBefore_eq_false _ _
      fun ev hev => rebuildPass_no_removed fs p _ _ ev hev

/-- Characterization of which pipelines get a rebuild attempt while one
changed path is processed: exactly those whose vertex or fragment shader
path equals the changed path, and only if the changed module either was not
cached or its isolated reload read the file successfully (a failed isolated
reload `continue`s past the pipeline loop). -/
theorem processOne_attempted (fs : FS) (s : PMState) (p : String) (h : Nat) :
    rebuildAttemptedFor (processOneChange fs s p).2 h = true ↔
      (((alLookup s.shaderModules p).isNone ∨ (fs p).isSome) ∧
        ∃ e, (h, e) ∈ s.renderPipelines ∧
          (e.descriptor.vertexShader.path = p ∨
            e.descriptor.fragmentShader.path = p)) := by
  rw [processOneChange]
  split
  · rename_i m₀ hm
    split
    · rename_i m hload
      have hfs : (fs p).isSome = true := by
        rw [loadShaderModule] at hload
        cases hfsp : fs p with
        | none => rw [hfsp] at hload; cases hload
        | some src => rfl
      have hskip : rebuildAttemptedFor
          (ReloadEvent.moduleRemoved p :: ReloadEvent.moduleReloaded p ::
            (rebuildPass fs p s.renderPipelines
              (alInsert (alEraseKey s.shaderModules p) p m)).2.2) h =
          rebuildAttemptedFor
            (rebuildPass fs p s.renderPipelines
              (alInsert (alEraseKey s.shaderModules p) p m)).2.2 h := by
        simp [rebuildAttemptedFor]
      rw [hskip, rebuildPass_attempted]
      constructor
      · intro he
        exact ⟨Or.inr hfs, he⟩
      · intro ⟨_, he⟩
        exact he
    · rename_i err hload
      have hfs : (fs p).isSome = false := by
        rw [loadShaderModule] at hload
        cases hfsp : fs p with
        | none => rfl
        | some src => rw [hfsp] at hload; cases hload
      constructor
      · intro hat
        simp [rebuildAttemptedFor] at hat
      · intro ⟨hcond, _⟩
        rcases hcond with hcond | hcond
        · rw [hm] at hcond; cases hcond
        · rw [hfs] at hcond; cases hcond
  · rename_i hm
    rw [rebuildPass_attempted]
    constructor
    · intro he
      exact ⟨Or.inl (by rw [hm]; rfl), he⟩
    · intro ⟨_, he⟩
      exact he

/-- Across a whole sweep, every pipeline entry survives under its handle
with its descriptor intact, and its pipeline object is replaced only by an
object carried by some `rebuildSucceeded` event of the sweep's trace. -/
theorem reloadLoop_lookup (fs : FS) :
    ∀ (changed : List String) (s : PMState) (h : Nat)
      (e : RenderPipelineEntry),
      alLookup s.renderPipelines h = some e →
      ∃ e', alLookup (reloadLoop fs s changed).1.renderPipelines h = some e' ∧
        e'.descriptor = e.descriptor ∧
        (e'.pipeline = e.pipeline ∨
          ReloadEvent.rebuildSucceeded h e'.pipeline ∈
            (reloadLoop fs s changed).2) := by
  intro changed
  induction changed with
  | nil => intro s h e he; exact ⟨e, he, rfl, .inl rfl⟩
  | cons p rest ih =>
    intro s h e he
    obtain ⟨e₁, hl₁, hd₁, hp₁⟩ := processOne_lookup fs s p h e he
    obtain ⟨e₂, hl₂, hd₂, hp₂⟩ := ih (processOneChange fs s p).1 h e₁ hl₁
    rw [reloadLoop]
    refine ⟨e₂, hl₂, hd₂.trans hd₁, ?_⟩
    rcases hp₂ with hp₂ | hp₂
    · rcases hp₁ with hp₁ | hp₁
      · exact .inl (hp₂.trans hp₁)
      · refine .inr ?_
        rw [hp₂]
        exact List.mem_append_left _ hp₁
    · exact .inr (List.mem_append_right _ hp₂)

theorem reloadLoop_nextHandle (fs : FS) :
    ∀ (changed : List String) (s : PMState),
      (reloadLoop fs s changed).1.nextHandle = s.nextHandle := by
  intro changed
  induction changed with
  | nil => intro s; rfl
  | cons p rest ih =>
    intro s
    rw [reloadLoop]
    exact (ih (processOneChange fs s p).1).trans (processOne_nextHandle fs s p)

theorem reloadLoop_mem_keys (fs : FS) :
    ∀ (changed : List String) (s : PMState) (h : Nat)
      (e' : RenderPipelineEntry),
      (h, e') ∈ (reloadLoop fs s changed).1.renderPipelines →
      ∃ e, (h, e) ∈ s.renderPipelines := by
  intro changed
  induction changed with
  | nil => intro s h e' hmem; exact ⟨e', hmem⟩
  | cons p rest ih =>
    intro s h e' hmem
    rw [reloadLoop] at hmem
    obtain ⟨e₁, hmem₁⟩ := ih (processOneChange fs s p).1 h e' hmem
    exact processOne_mem_keys fs s p h e₁ hmem₁

/-! ## Lemmas about pipeline creation -/

theorem alLookup_mem {α β : Type} [DecidableEq α] :
    ∀ (l : List (α × β)) (k : α) (v : β), alLookup l k = some v → (k, v) ∈ l := by
  intro l
  induction l with
  | nil => intro k v h; simp [alLookup] at h
  | cons kv rest ih =>
    obtain ⟨k', w⟩ := kv
    intro k v h
    rw [alLookup] at h
    by_cases hk : k = k'
    · rw [if_pos hk] at h
      injection h with h
      subst hk
      subst h
      exact List.mem_cons_self _ _
    · rw [if_neg hk] at h
      exact List.mem_cons_of_mem _ (ih k v h)

theorem alLookup_append_single_isSome {α β : Type} [DecidableEq α]
    (l : List (α × β)) (k : α) (v : β) :
    (alLookup (l ++ [(k, v)]) k).isSome = true := by
  cases hl : alLookup l k with
  | some w => rw [alLookup_append_left _ _ _ _ hl]; rfl
  | none => rw [alLookup_append_right _ _ _ hl]; simp [alLookup]

/-- The only error `load_shader_module` produces is a failed source read,
reported at the path joined under the shaders directory. -/
theorem loadShaderModule_error (fs : FS) (p : String) (err : PipelineError)
    (h : loadShaderModule fs p = .error err) :
    err = .failedToLoadShaderSource (shadersDirJoin p) ∧ fs p = none := by
  rw [loadShaderModule] at h
  cases hfs : fs p with
  | some src => rw [hfs] at h; cases h
  | none =>
    rw [hfs] at h
    injection h with h
    exact ⟨h.symm, rfl⟩

theorem loadShaderModule_ok (fs : FS) (p : String) (m : ShaderModuleEntry)
    (h : loadShaderModule fs p = .ok m) : fs p = some m.source := by
  rw [loadShaderModule] at h
  cases hfs : fs p with
  | some src => rw [hfs] at h; injection h with h; rw [← h]
  | none => rw [hfs] at h; cases h

/-- When both stage modules are present, the final assembly step succeeds
and builds the pipeline from the two cached sources. -/
theorem createWgpuFinish_ok (modules : List (String × ShaderModuleEntry))
    (d : RenderPipelineDescriptor) (vm fm : ShaderModuleEntry)
    (hv : alLookup modules d.vertexShader.path = some vm)
    (hf : alLookup modules d.fragmentShader.path = some fm) :
    createWgpuRenderPipeline.createWgpuFinish modules d =
      (.ok { vertexSource := vm.source, fragmentSource := fm.source,
             vertexEntry := d.vertexShader.functionName,
             fragmentEntry := d.fragmentShader.functionName }, modules) := by
  rw [createWgpuRenderPipeline.createWgpuFinish, hv, hf]

/-- Any error of the vertex-ensured half of `create_wgpu_render_pipeline`
is a failed fragment-source read. -/
theorem createWgpuAfterVertex_error (fs : FS)
    (modules : List (String × ShaderModuleEntry))
    (d : RenderPipelineDescriptor) (vm : ShaderModuleEntry)
    (err : PipelineError) (modules' : List (String × ShaderModuleEntry))
    (hv : alLookup modules d.vertexShader.path = some vm)
    (h : createWgpuRenderPipeline.createWgpuAfterVertex fs modules d =
      (.error err, modules')) :
    err = .failedToLoadShaderSource (shadersDirJoin d.fragmentShader.path) := by
  rw [createWgpuRenderPipeline.createWgpuAfterVertex] at h
  split at h
  · rename_i fm hf
    rw [createWgpuFinish_ok modules d vm fm hv hf] at h
    cases h
  · rename_i hf
    split at h
    · rename_i e hload
      rw [Prod.mk.injEq] at h
      injection h.1 with h1
      exact h1 ▸ (loadShaderModule_error fs _ e hload).1
    · rename_i m hload
      by_cases hsame : d.vertexShader.path = d.fragmentShader.path
      · rw [createWgpuFinish_ok _ d m m
          (by rw [hsame]; exact alLookup_insert_self _ _ _)
          (alLookup_insert_self _ _ _)] at h
        cases h
      · rw [createWgpuFinish_ok _ d vm m
          (by rw [alLookup_insert_ne _ _ _ _ hsame]; exact hv)
          (alLookup_insert_self _ _ _)] at h
        cases h

/-- Any error of `create_wgpu_render_pipeline` is a failed source read of
the vertex or the fragment stage. -/
theorem createWgpu_error (fs : FS)
    (modules : List (String × ShaderModuleEntry))
    (d : RenderPipelineDescriptor) (err : PipelineError)
    (modules' : List (String × ShaderModuleEntry))
    (h : createWgpuRenderPipeline fs modules d = (.error err, modules')) :
    err = .failedToLoadShaderSource (shadersDirJoin d.vertexShader.path) ∨
    err = .failedToLoadShaderSource (shadersDirJoin d.fragmentShader.path) := by
  rw [createWgpuRenderPipeline] at h
  split at h
  · rename_i vm hv
    exact Or.inr (createWgpuAfterVertex_error fs modules d vm err modules' hv h)
  · rename_i hv
    split at h
    · rename_i e hload
      rw [Prod.mk.injEq] at h
      injection h.1 with h1
      exact Or.inl (h1 ▸ (loadShaderModule_error fs _ e hload).1)
    · rename_i m hload
      exact Or.inr (createWgpuAfterVertex_error fs _ d m err modules'
        (alLookup_insert_self _ _ _) h)

/-! ## Claim theorems -/

/-- C1: every pipeline handle successfully returned by
`create_render_pipeline` resolves to a valid backend pipeline, creation of
further pipelines and reload sweeps keep every registered handle resolving,
the stored descriptor is never touched, and the stored pipeline object is
replaced only by an object built in a successful rebuild (carried by a
`rebuildSucceeded` event of the sweep's trace); a failed rebuild attempt
leaves the record unchanged. -/
theorem c1_pipeline_handles_always_resolve :
    (∀ (fs : FS) (s : PMState) (d : RenderPipelineDescriptor) (h : Nat)
      (s' : PMState), createRenderPipeline fs s d = (.ok h, s') →
      ∃ p, getRenderPipeline s' h = some p) ∧
    (∀ (fs : FS) (s : PMState) (d : RenderPipelineDescriptor) (h : Nat)
      (e : RenderPipelineEntry), alLookup s.renderPipelines h = some e →
      alLookup (createRenderPipeline fs s d).2.renderPipelines h = some e) ∧
    (∀ (fs : FS) (changed : List String) (s : PMState) (h : Nat)
      (e : RenderPipelineEntry), alLookup s.renderPipelines h = some e →
      ∃ e', alLookup (reloadChangedPipelines fs changed s).1.renderPipelines h =
          some e' ∧
        getRenderPipeline (reloadChangedPipelines fs changed s).1 h =
          some e'.pipeline ∧
        e'.descriptor = e.descriptor ∧
        (e'.pipeline = e.pipeline ∨
          ReloadEvent.rebuildSucceeded h e'.pipeline ∈
            (reloadChangedPipelines fs changed s).2)) := by
  refine ⟨?_, ?_, ?_⟩
  · intro fs s d h s' hcall
    rw [createRenderPipeline] at hcall
    split at hcall
    · rw [Prod.mk.injEq] at hcall
      exact absurd hcall.1 (by simp)
    · rename_i p modules' hw
      rw [Prod.mk.injEq] at hcall
      obtain ⟨h1, h2⟩ := hcall
      injection h1 with h1
      subst h1
      subst h2
      obtain ⟨w, hw'⟩ := Option.isSome_iff_exists.mp
        (alLookup_append_single_isSome s.renderPipelines s.nextHandle
          ⟨p, d⟩)
      exact ⟨w.pipeline, by rw [getRenderPipeline, hw']; rfl⟩
  · intro fs s d h e he
    rw [createRenderPipeline]
    split
    · exact he
    · exact alLookup_append_left _ _ _ _ he
  · intro fs changed s h e he
    rw [reloadChangedPipelines]
    obtain ⟨e', hl, hd, hp⟩ := reloadLoop_lookup fs (dedupFirst changed) s h e he
    refine ⟨e', hl, ?_, hd, hp⟩
    rw [getRenderPipeline, hl]
    rfl

def witnessFS : FS := fun p =>
  if p = "v.wgsl" then some "vSrc" else if p = "f.wgsl" then some "fSrc"
  else none

def witnessDesc : RenderPipelineDescriptor :=
  ⟨"witness", ⟨"v.wgsl", "vsMain"⟩, ⟨"f.wgsl", "fsMain"⟩⟩

def witnessState : PMState := (createRenderPipeline witnessFS emptyPM witnessDesc).2

def witnessEntry : RenderPipelineEntry :=
  ⟨⟨"vSrc", "fSrc", "vsMain", "fsMain"⟩, witnessDesc⟩

/-- Witness for C1 at a concrete one-pipeline manager. -/
theorem c1_witness :
    (∃ p, getRenderPipeline witnessState 0 = some p) ∧
    alLookup (createRenderPipeline witnessFS witnessState
      witnessDesc).2.renderPipelines 0 = some witnessEntry ∧
    (∃ e', alLookup (reloadChangedPipelines witnessFS ["v.wgsl"]
        witnessState).1.renderPipelines 0 = some e' ∧
      getRenderPipeline (reloadChangedPipelines witnessFS ["v.wgsl"]
        witnessState).1 0 = some e'.pipeline ∧
      e'.descriptor = witnessEntry.descriptor ∧
      (e'.pipeline = witnessEntry.pipeline ∨
        ReloadEvent.rebuildSucceeded 0 e'.pipeline ∈
          (reloadChangedPipelines witnessFS ["v.wgsl"] witnessState).2)) :=
  ⟨c1_pipeline_handles_always_resolve.1 witnessFS emptyPM witnessDesc 0
      witnessState (by decide),
   c1_pipeline_handles_always_resolve.2.1 witnessFS witnessState witnessDesc 0
      witnessEntry (by decide),
   c1_pipeline_handles_always_resolve.2.2 witnessFS ["v.wgsl"] witnessState 0
      witnessEntry (by decide)⟩

/-- C2: with modules `a` importing `b` importing `c`, compiling `a` and then
invalidating `c` removes the records of all three modules and returns all
three handles in the removed list. -/
theorem c2_transitive_invalidation :
    getOrLoadShaderSourceF chainEnv 8 emptyCache "a" =
      some (chainState, .ok 2) ∧
    alLookup chainState.shaderSourcesPerPath "/a" = some 2 ∧
    alLookup chainState.shaderSourcesPerPath "/b" = some 1 ∧
    alLookup chainState.shaderSourcesPerPath "/c" = some 0 ∧
    2 ∈ (removeShaderForPath chainEnv chainState "c").1 ∧
    1 ∈ (removeShaderForPath chainEnv chainState "c").1 ∧
    0 ∈ (removeShaderForPath chainEnv chainState "c").1 ∧
    alLookup (removeShaderForPath chainEnv chainState "c").2.shaderSources 0 =
      none ∧
    alLookup (removeShaderForPath chainEnv chainState "c").2.shaderSources 1 =
      none ∧
    alLookup (removeShaderForPath chainEnv chainState "c").2.shaderSources 2 =
      none ∧
    alLookup (removeShaderForPath chainEnv chainState
      "c").2.shaderSourcesPerPath "/a" = none ∧
    alLookup (removeShaderForPath chainEnv chainState
      "c").2.shaderSourcesPerPath "/b" = none ∧
    alLookup (removeShaderForPath chainEnv chainState
      "c").2.shaderSourcesPerPath "/c" = none := by
  decide

/-- C4 counterexample: there is no broken set.  In sweep one the pipeline's
rebuild fails (`rebuildFailed 0` is in the trace); in sweep two an
unrelated module `cc.wgsl` changes while the broken fragment source `b` is
fixed on disk, yet no rebuild is attempted for the pipeline and it still
serves the original stale object, contradicting the claimed
retry-via-broken-set behavior. -/
theorem c4_counterexample :
    ReloadEvent.rebuildFailed 0 ∈ sweepC4One.2 ∧
    (fsC4Sweep2 "b").isSome = true ∧
    rebuildAttemptedFor sweepC4Two.2 0 = false ∧
    getRenderPipeline sweepC4Two.1 0 =
      some ⟨"A0", "B0", "vsMain", "fsMain"⟩ := by
  decide

/-- C4 (amended): in a sweep for one changed path, a rebuild is attempted
exactly for the registered pipelines whose vertex or fragment shader path
equals the changed path, and only when the changed module either was not
cached or its isolated reload succeeded; a previously failed pipeline is
not retried for unrelated changes. -/
theorem c4_amended_rebuild_attempt_characterization (fs : FS) (s : PMState)
    (p : String) (h : Nat) :
    rebuildAttemptedFor (reloadChangedPipelines fs [p] s).2 h = true ↔
      (((alLookup s.shaderModules p).isNone ∨ (fs p).isSome) ∧
        ∃ e, (h, e) ∈ s.renderPipelines ∧
          (e.descriptor.vertexShader.path = p ∨
            e.descriptor.fragmentShader.path = p)) := by
  have heq : (reloadChangedPipelines fs [p] s).2 = (processOneChange fs s p).2 :=
    List.append_nil _
  rw [heq]
  exact processOne_attempted fs s p h

/-- C5 counterexample: with a pipeline using shaders `x` and `y` and both
changed in one sweep, the rebuild triggered by `x` is attempted before `y`
is invalidated, and that rebuild observes the stale `y` module (`Y0`)
although `y`'s source already reads `Y1`, contradicting the claim that all
invalidation completes before any rebuild. -/
theorem c5_counterexample :
    occursBefore isRebuildEvent isModuleRemovedEvent sweepC5.2 = true ∧
    ReloadEvent.rebuildSucceeded 0 ⟨"X1", "Y0", "vsMain", "fsMain"⟩ ∈
      sweepC5.2 ∧
    alLookup stateC5.shaderModules "y" = some ⟨"Y0"⟩ ∧
    fsC5Sweep "y" = some "Y1" := by
  decide

/-- C5 (amended): invalidation precedes rebuilds only per changed path: in
the processing of a single changed path no module invalidation happens
after a rebuild attempt, but invalidations of later-drained paths follow
the rebuilds of earlier ones. -/
theorem c5_amended_invalidation_precedes_rebuilds_per_path (fs : FS)
    (s : PMState) (p : String) :
    occursBefore isRebuildEvent isModuleRemovedEvent
      (processOneChange fs s p).2 = false :=
  processOne_removal_first fs s p

/-- C6: `get_or_load_shader_module` memoizes.  After a successful call, a
second call for the same module identifier returns the same handle and
leaves the cache state untouched (no resolution, recompilation or
re-insertion happens), for any fuel, provided path resolution is stable
(canonicalization is idempotent on its outputs).  The code keys the cache
by path only — there is no feature-flag parameter, so the claim's
flag-set condition is trivially satisfied by the unique empty flag set. -/
theorem c6_shader_module_memoization (env : ShaderEnv) (fuel fuel₂ : Nat)
    (s s' : ShaderCacheState) (path : String) (h : Nat)
    (hstable : env.ResolveStable)
    (hcall : getOrLoadShaderModuleF env fuel s path = some (s', .ok h)) :
    getOrLoadShaderModuleF env fuel₂ s' path = some (s', .ok h) := by
  obtain ⟨rp, hres, hpp, hmod⟩ :=
    moduleLoad_cached env fuel s s' path h hstable hcall
  simp [getOrLoadShaderModuleF, hres, hpp, moduleCompileStep, hmod]

/-- Environment with a single importless module `m`, used to witness C6. -/
def memoEnv : ShaderEnv where
  resolvePath p := some p
  rawShaderSource p := if p = "m" then some "srcM" else none
  preprocessorData _ := (none, [])
  composeOk _ := true
  makeModuleOk _ := true
  composerPath p := p

def memoState : ShaderCacheState :=
  ((getOrLoadShaderModuleF memoEnv 2 emptyCache "m").getD
    (emptyCache, .ok 0)).1

/-- Witness for C6: a concrete second call hits the cache. -/
theorem c6_witness :
    getOrLoadShaderModuleF memoEnv 7 memoState "m" = some (memoState, .ok 0) :=
  c6_shader_module_memoization memoEnv 2 7 emptyCache memoState "m" 0
    (fun _ _ _ => rfl) (by decide)

/-- C7: when `create_render_pipeline` fails, the failure is a
`PipelineError` wrapping the failed shader-source load of one of the two
stages, and no pipeline is registered: the pipeline slotmap and its handle
counter are exactly what they were before the call. -/
theorem c7_create_failure_registers_nothing (fs : FS) (s : PMState)
    (d : RenderPipelineDescriptor) (err : PipelineError) (s' : PMState)
    (hcall : createRenderPipeline fs s d = (.error err, s')) :
    s'.renderPipelines = s.renderPipelines ∧ s'.nextHandle = s.nextHandle ∧
      (err = .failedToLoadShaderSource (shadersDirJoin d.vertexShader.path) ∨
       err = .failedToLoadShaderSource (shadersDirJoin d.fragmentShader.path)) := by
  rw [createRenderPipeline] at hcall
  split at hcall
  · rename_i e modules' hw
    rw [Prod.mk.injEq] at hcall
    obtain ⟨h1, h2⟩ := hcall
    injection h1 with h1
    subst h2
    exact ⟨rfl, rfl, h1 ▸ createWgpu_error fs s.shaderModules d e modules' hw⟩
  · rename_i p modules' hw
    rw [Prod.mk.injEq] at hcall
    exact absurd hcall.1 (by simp)

def fsNone : FS := fun _ => none

/-- Witness for C7 at a concrete failing creation. -/
theorem c7_witness :
    emptyPM.renderPipelines = emptyPM.renderPipelines ∧
    emptyPM.nextHandle = emptyPM.nextHandle ∧
    (PipelineError.failedToLoadShaderSource "terrain_and_stuff/shaders/v.wgsl" =
        .failedToLoadShaderSource (shadersDirJoin witnessDesc.vertexShader.path) ∨
     PipelineError.failedToLoadShaderSource "terrain_and_stuff/shaders/v.wgsl" =
        .failedToLoadShaderSource (shadersDirJoin witnessDesc.fragmentShader.path)) :=
  c7_create_failure_registers_nothing fsNone emptyPM witnessDesc
    (.failedToLoadShaderSource "terrain_and_stuff/shaders/v.wgsl") emptyPM
    (by decide)

/-- C8: invalidating a module identifier that has no cached record — either
because the path does not resolve or because no record is keyed by the
resolved path — returns the empty removed list and leaves the cache state
unchanged. -/
theorem c8_invalidate_absent_noop (env : ShaderEnv) (s : ShaderCacheState)
    (path : String)
    (habsent : env.resolvePath path = none ∨
      ∃ rp, env.resolvePath path = some rp ∧
        alLookup s.shaderSourcesPerPath rp = none) :
    removeShaderForPath env s path = ([], s) := by
  rcases habsent with hres | ⟨rp, hres, hpp⟩
  · simp [removeShaderForPath, removeShaderForPathF, hres]
  · simp [removeShaderForPath, removeShaderForPathF, hres, hpp]

/-- Witness for C8: invalidating `a` on an empty cache is a no-op. -/
theorem c8_witness : removeShaderForPath chainEnv emptyCache "a" =
    ([], emptyCache) :=
  c8_invalidate_absent_noop chainEnv emptyCache "a"
    (Or.inr ⟨"/a", by decide, by decide⟩)

/-- C9: `get_render_pipeline` is a pure lookup (its model is a function of
the state returning an option, with no state output): a handle that was
never created — one at or above the slotmap's handle counter, which bounds
every registered handle, and the operations preserve that bound — yields
`none` (the missing-pipeline report) rather than any pipeline object, and a
registered handle yields exactly the stored pipeline object. -/
theorem c9_get_render_pipeline_pure_lookup :
    (∀ (s : PMState) (h : Nat), s.HandlesBounded → s.nextHandle ≤ h →
      getRenderPipeline s h = none) ∧
    (∀ (s : PMState) (h : Nat) (e : RenderPipelineEntry),
      alLookup s.renderPipelines h = some e →
      getRenderPipeline s h = some e.pipeline) ∧
    (∀ (fs : FS) (s : PMState) (d : RenderPipelineDescriptor),
      s.HandlesBounded → ((createRenderPipeline fs s d).2).HandlesBounded) ∧
    (∀ (fs : FS) (changed : List String) (s : PMState),
      s.HandlesBounded →
      ((reloadChangedPipelines fs changed s).1).HandlesBounded) := by
  refine ⟨?_, ?_, ?_, ?_⟩
  · intro s h hb hge
    rw [getRenderPipeline]
    cases hl : alLookup s.renderPipelines h with
    | none => rfl
    | some e =>
      have := hb h e (alLookup_mem _ _ _ hl)
      omega
  · intro s h e he
    rw [getRenderPipeline, he]
    rfl
  · intro fs s d hb
    rw [createRenderPipeline]
    split
    · exact hb
    · rename_i p modules' hw
      intro h e hmem
      rcases List.mem_append.mp hmem with hmem | hmem
      · exact Nat.lt_succ_of_lt (hb h e hmem)
      · rw [List.mem_singleton, Prod.mk.injEq] at hmem
        rw [hmem.1]
        exact Nat.lt_succ_self _
  · intro fs changed s hb
    intro h e hmem
    rw [reloadChangedPipelines] at hmem ⊢
    rw [reloadLoop_nextHandle]
    obtain ⟨e₀, hmem₀⟩ := reloadLoop_mem_keys fs (dedupFirst changed) s h e hmem
    exact hb h e₀ hmem₀

/-- Witness for C9: looking up a never-created handle on the empty manager. -/
theorem c9_witness : getRenderPipeline emptyPM 0 = none :=
  c9_get_render_pipeline_pure_lookup.1 emptyPM 0
    (fun _ _ hmem => absurd hmem (List.not_mem_nil _)) (Nat.le_refl 0)

/-- C10: when `create_render_pipeline` fails because the fragment source
cannot be read, the vertex module loaded earlier in the same call stays in
the shader-module cache even though no pipeline is registered, and a later
pipeline build for the same descriptor reuses the cached vertex module
(whatever the filesystem then says for the vertex path) while loading only
the fragment module. -/
theorem c10_partial_module_cache_on_failure (fs fs₂ : FS) (s : PMState)
    (d : RenderPipelineDescriptor) (vsrc : String)
    (hvcache : alLookup s.shaderModules d.vertexShader.path = none)
    (hfcache : alLookup s.shaderModules d.fragmentShader.path = none)
    (hneq : d.fragmentShader.path ≠ d.vertexShader.path)
    (hv : fs d.vertexShader.path = some vsrc)
    (hf : fs d.fragmentShader.path = none) :
    (createRenderPipeline fs s d).1 =
      .error (.failedToLoadShaderSource (shadersDirJoin d.fragmentShader.path)) ∧
    (createRenderPipeline fs s d).2.renderPipelines = s.renderPipelines ∧
    alLookup (createRenderPipeline fs s d).2.shaderModules
      d.vertexShader.path = some ⟨vsrc⟩ ∧
    (∀ fsrc₂, fs₂ d.fragmentShader.path = some fsrc₂ →
      createWgpuRenderPipeline fs₂ (createRenderPipeline fs s d).2.shaderModules
          d =
        (.ok { vertexSource := vsrc, fragmentSource := fsrc₂,
               vertexEntry := d.vertexShader.functionName,
               fragmentEntry := d.fragmentShader.functionName },
         alInsert (createRenderPipeline fs s d).2.shaderModules
           d.fragmentShader.path ⟨fsrc₂⟩)) := by
  have hwv : loadShaderModule fs d.vertexShader.path = .ok ⟨vsrc⟩ := by
    rw [loadShaderModule, hv]
  have hwf : loadShaderModule fs d.fragmentShader.path =
      .error (.failedToLoadShaderSource (shadersDirJoin d.fragmentShader.path)) := by
    rw [loadShaderModule, hf]
  have hfrag₁ : alLookup (alInsert s.shaderModules d.vertexShader.path ⟨vsrc⟩)
      d.fragmentShader.path = none := by
    rw [alLookup_insert_ne _ _ _ _ hneq]
    exact hfcache
  have hav : createWgpuRenderPipeline.createWgpuAfterVertex fs
      (alInsert s.shaderModules d.vertexShader.path ⟨vsrc⟩) d =
      (.error (.failedToLoadShaderSource (shadersDirJoin d.fragmentShader.path)),
       alInsert s.shaderModules d.vertexShader.path ⟨vsrc⟩) := by
    simp only [createWgpuRenderPipeline.createWgpuAfterVertex, hfrag₁, hwf]
  have hwgpu : createWgpuRenderPipeline fs s.shaderModules d =
      (.error (.failedToLoadShaderSource (shadersDirJoin d.fragmentShader.path)),
       alInsert s.shaderModules d.vertexShader.path ⟨vsrc⟩) := by
    simp only [createWgpuRenderPipeline, hvcache, hwv, hav]
  have hcall : createRenderPipeline fs s d =
      (.error (.failedToLoadShaderSource (shadersDirJoin d.fragmentShader.path)),
       { s with shaderModules :=
           alInsert s.shaderModules d.vertexShader.path ⟨vsrc⟩ }) := by
    simp only [createRenderPipeline, hwgpu]
  refine ⟨by rw [hcall], by rw [hcall], ?_, ?_⟩
  · rw [hcall]
    exact alLookup_insert_self _ _ _
  · intro fsrc₂ hf₂
    rw [hcall]
    have hv₂ : alLookup (alInsert s.shaderModules d.vertexShader.path ⟨vsrc⟩)
        d.vertexShader.path = some ⟨vsrc⟩ := alLookup_insert_self _ _ _
    have hwf₂ : loadShaderModule fs₂ d.fragmentShader.path = .ok ⟨fsrc₂⟩ := by
      rw [loadShaderModule, hf₂]
    have hffin : alLookup (alInsert (alInsert s.shaderModules
        d.vertexShader.path ⟨vsrc⟩) d.fragmentShader.path ⟨fsrc₂⟩)
        d.fragmentShader.path = some ⟨fsrc₂⟩ := alLookup_insert_self _ _ _
    have hvfin : alLookup (alInsert (alInsert s.shaderModules
        d.vertexShader.path ⟨vsrc⟩) d.fragmentShader.path ⟨fsrc₂⟩)
        d.vertexShader.path = some ⟨vsrc⟩ := by
      rw [alLookup_insert_ne _ _ _ _ fun hh => hneq hh.symm]
      exact hv₂
    simp only [createWgpuRenderPipeline, hv₂,
      createWgpuRenderPipeline.createWgpuAfterVertex, hfrag₁, hwf₂,
      createWgpuFinish_ok _ d ⟨vsrc⟩ ⟨fsrc₂⟩ hvfin hffin]

def c10FS : FS := fun p => if p = "v.wgsl" then some "vSrc" else none

/-- Witness for C10 at a concrete failing creation followed by a successful
build against a filesystem with changed vertex content. -/
theorem c10_witness :
    (createRenderPipeline c10FS emptyPM witnessDesc).1 =
      .error (.failedToLoadShaderSource
        (shadersDirJoin witnessDesc.fragmentShader.path)) ∧
    (createRenderPipeline c10FS emptyPM witnessDesc).2.renderPipelines =
      emptyPM.renderPipelines ∧
    alLookup (createRenderPipeline c10FS emptyPM witnessDesc).2.shaderModules
      witnessDesc.vertexShader.path = some ⟨"vSrc"⟩ ∧
    createWgpuRenderPipeline witnessFS
        (createRenderPipeline c10FS emptyPM witnessDesc).2.shaderModules
        witnessDesc =
      (.ok { vertexSource := "vSrc", fragmentSource := "fSrc",
             vertexEntry := witnessDesc.vertexShader.functionName,
             fragmentEntry := witnessDesc.fragmentShader.functionName },
       alInsert (createRenderPipeline c10FS emptyPM
           witnessDesc).2.shaderModules
         witnessDesc.fragmentShader.path ⟨"fSrc"⟩) := by
  have hmain := c10_partial_module_cache_on_failure c10FS witnessFS emptyPM
    witnessDesc "vSrc" (by decide) (by decide) (by decide) (by decide)
    (by decide)
  exact ⟨hmain.1, hmain.2.1, hmain.2.2.1, hmain.2.2.2 "fSrc" (by decide)⟩
